import Mathlib

/-!
Verification development for the eldermarxPDF report service.

The repository consists of two Flask applications (src/api.py and
src/app.py) that share the same report-rendering core:

* sanitize_text  – replaces every maximal run of characters outside the
  7-bit range by a single space (regex sub of the class of code points
  above 0x7F with a space), mapping None to the empty string;
* format_value   – converts a scalar value to a display string, with a
  hard-coded display limit of 100 characters for strings;
* create_pdf     – assembles the document element list (title, timestamp
  subtitle, table or no-data paragraph, footer) and picks the page
  orientation;
* generate_pdf   – the request handler: presence validation of the
  required keys, validation of the fields list, then the calls to the
  external collaborators (modelled as explicit outcome parameters).

Strings are modelled by the Lean `String` type, whose logical model is a
list of unicode code points, matching Python strings for the purposes of
this code. Geometry (margins, column widths, paddings, colors) is not
modelled; the element sequence, the texts and the table data are.
-/

/-- The space character, the replacement text of the sanitizing regex. -/
def spaceChar : Char := Char.ofNat 32

/-- Core loop of sanitize_text, a direct rendering of
re.sub applied to the class of code points above 0x7F with a single
space as replacement: scanning left to right, a character at or below
0x7F is kept, and a maximal nonempty run of characters above 0x7F is
replaced by one space.  The flag records whether the scanner is inside
such a run, so that only the first character of the run emits the
space. -/
def sanitizeAux (inRun : Bool) : List Char → List Char
  | [] => []
  | c :: cs =>
    if c.toNat ≤ 127 then c :: sanitizeAux false cs
    else if inRun then sanitizeAux true cs
    else spaceChar :: sanitizeAux true cs

/-- Sanitizing a character list, starting outside any run. -/
def sanitizeChars (l : List Char) : List Char :=
  sanitizeAux false l

/-- sanitize_text from src/api.py lines 17-24 (identical in src/app.py
lines 17-23).  None maps to the empty string; any other argument is
converted with the Python builtin str and the non-7-bit runs are
collapsed.  In every call site of the repository the non-None argument
is already a string, on which the str conversion is the identity, so the
function is modelled on `Option String`. -/
def sanitize_text : Option String → String
  | none => ""
  | some t => String.mk (sanitizeChars t.data)

/-- Python string slicing s[:n], taking the first n code points. -/
def str_take (s : String) (n : Nat) : String :=
  String.mk (s.data.take n)

/-- Python str.upper restricted to ASCII input: every call site in the
repository uppercases a string that has just been sanitized, hence one
whose characters are all in the 7-bit range, where Python str.upper and
per-character ASCII uppercasing agree. -/
def str_upper (s : String) : String :=
  String.mk (s.data.map Char.toUpper)

/-- Scalar values carried in a row fetched from the backend, mirroring
the types distinguished by format_value: None, bool, int, str.  Numbers
are modelled as arbitrary-precision integers (Python int); floating
point display is out of scope.  The `other` constructor stands for a
value of any further Python type, carrying the string that the Python
builtin str would produce for it. -/
inductive PyVal where
  | null
  | bool (b : Bool)
  | int (n : Int)
  | str (s : String)
  | other (s : String)
deriving DecidableEq

/-- format_value from src/api.py lines 26-39 (identical in src/app.py
lines 25-37).  None maps to a dash, booleans to the localized tokens,
integers to their decimal string, strings longer than 100 code points
are truncated to 97 plus an ellipsis, and a value of any other type is
converted with the Python builtin str (the `other` constructor carries
that conversion). -/
def format_value : PyVal → String
  | .null => "-"
  | .bool b => if b then "Sim" else "Não"
  | .int n => toString n
  | .str s => if s.length > 100 then str_take s 97 ++ "..." else s
  | .other s => s

/-- One data record: a mapping from field name to scalar value (a Python
dict, here an association list; backend rows have distinct keys). -/
abbrev Row := List (String × PyVal)

/-- Page orientation chosen by create_pdf: A4 portrait or A4 landscape. -/
inductive PageOrient where
  | portrait
  | landscape
deriving DecidableEq

/-- A flowable appended to the element list of the document: a styled
paragraph (carrying its text and the style name used in the code), a
spacer, or the table (carrying its cell data). -/
inductive Element where
  | paragraph (text : String) (style : String)
  | spacer
  | table (cells : List (List String))
deriving DecidableEq

/-- The assembled document: page orientation plus the element list that
doc.build receives.  Serialization to bytes is the rendering library
and is not modelled. -/
structure Pdf where
  orientation : PageOrient
  elements : List Element
deriving DecidableEq

/-- Header row of the table, src/api.py line 91: each field name is
sanitized and uppercased. -/
def headers (fields : List String) : List String :=
  fields.map fun field => str_upper (sanitize_text (some field))

/-- One body row of the table, src/api.py lines 96-100: for each field
in order, the value is looked up with default dash, formatted, then
sanitized. -/
def row_data (fields : List String) (row : Row) : List String :=
  fields.map fun field =>
    sanitize_text (some (format_value ((row.lookup field).getD (PyVal.str "-"))))

/-- The full cell matrix, src/api.py lines 92-101: the header row
followed by one body row per input row. -/
def table_data (data : List Row) (fields : List String) : List (List String) :=
  headers fields :: data.map (row_data fields)

/-- create_pdf from src/api.py lines 41-145 (identical element structure
in src/app.py lines 39-127).  The generation timestamp printed in the
subtitle is passed in as `now`.  Visual styling and column widths are
not modelled; the element sequence is: title paragraph, timestamp
subtitle, spacer, then either the no-data paragraph (when the row list
is empty) or the table followed by a spacer and the record-count
footer. -/
def create_pdf (data : List Row) (table_name : String) (fields : List String)
    (now : String) : Pdf :=
  let pagesize := if fields.length > 5 then PageOrient.landscape else PageOrient.portrait
  let front : List Element :=
    [ Element.paragraph ("Relatório: " ++ sanitize_text (some table_name)) "CustomTitle",
      Element.paragraph ("Gerado em: " ++ now) "CustomSubtitle",
      Element.spacer ]
  let elements :=
    if data.isEmpty then
      front ++ [Element.paragraph "Nenhum dado encontrado." "Normal"]
    else
      front ++
        [ Element.table (table_data data fields),
          Element.spacer,
          Element.paragraph ("Total de registros: " ++ toString data.length) "CustomSubtitle" ]
  { orientation := pagesize, elements := elements }

/-- JSON values of the request body. -/
inductive JVal where
  | null
  | bool (b : Bool)
  | num (n : Int)
  | str (s : String)
  | arr (xs : List JVal)
  | obj (kvs : List (String × JVal))

/-- The string content of a JSON value where the handler expects a
string (table_name, the entries of fields, folder).  In every scenario
the claims touch these are string values; the Python str conversion of
other JSON values is not needed by any claim and is abstracted to the
empty string. -/
def jstr : JVal → String
  | .str s => s
  | _ => ""

/-- The entries of the fields array as strings. -/
def jfieldStrings : JVal → List String
  | .arr xs => xs.map jstr
  | _ => []

/-- Required keys checked by src/api.py line 154. -/
def required_fields_api : List String :=
  ["table_name", "fields", "supabase_url", "anon_key"]

/-- Required keys checked by src/app.py line 135. -/
def required_fields_app : List String :=
  ["table_name", "fields", "supabase_url", "anon_key", "bucket_name"]

/-- The failing condition of the fields check, src/api.py line 165: the
value is not a list, or it is the empty list. -/
def fields_invalid : JVal → Bool
  | .arr xs => xs.isEmpty
  | _ => true

/-- The validation prologue shared verbatim by both handlers
(src/api.py lines 154-166, src/app.py lines 135-148): the loop over the
required keys returns a 400 message for the first absent key, then the
fields value must be a non-empty list.  Returns the error message of
the first failing check, or none when the handler proceeds to the
collaborator calls.  The request body is a Python dict, modelled as a
partial map from key to JSON value. -/
def validate (required : List String) (body : String → Option JVal) : Option String :=
  match required.find? (fun f => (body f).isNone) with
  | some f => some ("Campo obrigatório ausente: " ++ f)
  | none =>
    if fields_invalid ((body "fields").getD JVal.null) then
      some "O campo \"fields\" deve ser uma lista não vazia"
    else
      none

/-- HTTP responses the handlers produce: a 400 JSON error, a 500 JSON
error, the PDF attachment of src/api.py, or the 200 upload summary of
src/app.py. -/
inductive Response where
  | clientError (msg : String)
  | serverError (msg : String)
  | fileAttachment (pdf : Pdf) (filename : String)
  | uploadOk (pdf_link : String) (filename : String) (path : String) (records_count : Nat)
deriving DecidableEq

/-- generate_pdf from src/api.py lines 147-194.  The two external
collaborator steps are passed in as their outcomes: `connect` is the
create_client try block, `fetch` is the select/execute try block (its
error case also covers the join failure on non-string field entries).
The Bool of the result records whether the handler reached the first
collaborator call; `now` and `ts` are the two timestamp strings. -/
def generate_pdf (body : String → Option JVal) (connect : Except String Unit)
    (fetch : Except String (List Row)) (now ts : String) : Response × Bool :=
  match validate required_fields_api body with
  | some msg => (Response.clientError msg, false)
  | none =>
    match connect with
    | .error e => (Response.clientError ("Erro ao conectar com Supabase: " ++ e), true)
    | .ok _ =>
      match fetch with
      | .error e => (Response.clientError ("Erro ao buscar dados: " ++ e), true)
      | .ok rows =>
        let table_name := jstr ((body "table_name").getD JVal.null)
        let fields := jfieldStrings ((body "fields").getD JVal.null)
        (Response.fileAttachment (create_pdf rows table_name fields now)
          (table_name ++ "_" ++ ts ++ ".pdf"), true)

/-- Python str.strip applied with the slash character: drops leading and
trailing slashes (src/app.py line 172). -/
def stripSlash (s : String) : String :=
  String.mk (((s.data.dropWhile (· == '/')).reverse.dropWhile (· == '/')).reverse)

/-- generate_pdf from src/app.py lines 129-203, the upload variant: same
validation prologue and collaborator steps, then the rendered document
is uploaded under a timestamped path (optionally below a caller-supplied
folder) and a JSON summary is returned.  `upload` is the outcome of the
storage try block as a function of the document and path, returning the
public URL on success. -/
def app_generate_pdf (body : String → Option JVal) (connect : Except String Unit)
    (fetch : Except String (List Row)) (upload : Pdf → String → Except String String)
    (now ts : String) : Response × Bool :=
  match validate required_fields_app body with
  | some msg => (Response.clientError msg, false)
  | none =>
    match connect with
    | .error e => (Response.clientError ("Erro ao conectar com Supabase: " ++ e), true)
    | .ok _ =>
      match fetch with
      | .error e => (Response.clientError ("Erro ao buscar dados: " ++ e), true)
      | .ok rows =>
        let table_name := jstr ((body "table_name").getD JVal.null)
        let fields := jfieldStrings ((body "fields").getD JVal.null)
        let folder := jstr ((body "folder").getD (JVal.str ""))
        let filename := table_name ++ "_" ++ ts ++ ".pdf"
        let file_path := if folder ≠ "" then stripSlash folder ++ "/" ++ filename else filename
        let pdf := create_pdf rows table_name fields now
        match upload pdf file_path with
        | .error e => (Response.serverError ("Erro ao fazer upload do PDF: " ++ e), true)
        | .ok url => (Response.uploadOk url filename file_path rows.length, true)

/-- Reading the character list out of a constructed string. -/
theorem data_mk (l : List Char) : (String.mk l).data = l := rfl

/-- Every character the sanitizer emits is in the 7-bit range: kept
characters satisfied the guard and a run is replaced by the space. -/
theorem sanitizeAux_ascii (flag : Bool) (l : List Char) :
    ∀ c ∈ sanitizeAux flag l, c.toNat ≤ 127 := by
  induction l generalizing flag with
  | nil => intro c hc; simp [sanitizeAux] at hc
  | cons a as ih =>
    intro c hc
    by_cases ha : a.toNat ≤ 127
    · rw [sanitizeAux, if_pos ha] at hc
      rcases List.mem_cons.mp hc with rfl | hc
      · exact ha
      · exact ih false c hc
    · rw [sanitizeAux, if_neg ha] at hc
      cases flag with
      | true =>
        rw [if_pos rfl] at hc
        exact ih true c hc
      | false =>
        rw [if_neg (by decide)] at hc
        rcases List.mem_cons.mp hc with rfl | hc
        · decide
        · exact ih true c hc

/-- On a list of 7-bit characters the sanitizer is the identity. -/
theorem sanitizeAux_id (l : List Char) (h : ∀ c ∈ l, c.toNat ≤ 127) :
    sanitizeAux false l = l := by
  induction l with
  | nil => rfl
  | cons a as ih =>
    have ha : a.toNat ≤ 127 := h a (List.mem_cons_self a as)
    rw [sanitizeAux, if_pos ha, ih (fun c hc => h c (List.mem_cons_of_mem a hc))]

/-- Test whether a character list is empty or starts with a 7-bit
character, the shape of text that follows a maximal non-7-bit run. -/
def headAscii : List Char → Bool
  | [] => true
  | c :: _ => decide (c.toNat ≤ 127)

/-- When the next character is 7-bit (or the input ends), being inside a
run makes no difference to the sanitizer. -/
theorem sanitizeAux_true_eq (l : List Char) (h : headAscii l = true) :
    sanitizeAux true l = sanitizeAux false l := by
  cases l with
  | nil => rfl
  | cons a as =>
    have ha : a.toNat ≤ 127 := by simpa [headAscii] using h
    rw [sanitizeAux, sanitizeAux, if_pos ha, if_pos ha]

/-- Inside a run, further non-7-bit characters are consumed silently. -/
theorem sanitizeAux_skip (run l : List Char) (h : ∀ c ∈ run, 127 < c.toNat) :
    sanitizeAux true (run ++ l) = sanitizeAux true l := by
  induction run with
  | nil => rfl
  | cons a rest ih =>
    have ha : 127 < a.toNat := h a (List.mem_cons_self a rest)
    rw [List.cons_append, sanitizeAux, if_neg (by omega), if_pos rfl]
    exact ih (fun c hc => h c (List.mem_cons_of_mem a hc))

/-- A maximal nonempty run of non-7-bit characters collapses to one
space. -/
theorem sanitizeAux_run (run l : List Char) (hne : run ≠ [])
    (hrun : ∀ c ∈ run, 127 < c.toNat) (hl : headAscii l = true) :
    sanitizeAux false (run ++ l) = spaceChar :: sanitizeAux false l := by
  cases run with
  | nil => exact absurd rfl hne
  | cons a rest =>
    have ha : 127 < a.toNat := hrun a (List.mem_cons_self a rest)
    rw [List.cons_append, sanitizeAux, if_neg (by omega), if_neg (by decide),
      sanitizeAux_skip rest l (fun c hc => hrun c (List.mem_cons_of_mem a hc)),
      sanitizeAux_true_eq l hl]

/-- ASCII uppercasing keeps a character in the 7-bit range. -/
theorem toUpper_toNat_le (c : Char) (h : c.toNat ≤ 127) : (Char.toUpper c).toNat ≤ 127 := by
  have h2 : c.toNat < 128 := Nat.lt_succ_of_le h
  have key : ∀ n : Fin 128, ((Char.ofNat n.val).toUpper).toNat ≤ 127 := by decide
  have hk := key ⟨c.toNat, h2⟩
  rwa [Char.ofNat_toNat] at hk

/-- A contiguous occurrence of `sub` inside `l`. -/
def containsRun (sub l : List Char) : Prop :=
  ∃ pre suf, l = pre ++ sub ++ suf

/-- Every cell of the table matrix, header or body, consists of 7-bit
characters only: body cells come straight out of the sanitizer and
header cells are ASCII-uppercased sanitizer output. -/
theorem mem_table_data_ascii (data : List Row) (fields : List String)
    (r : List String) (hr : r ∈ table_data data fields)
    (cell : String) (hcell : cell ∈ r) : ∀ c ∈ cell.data, c.toNat ≤ 127 := by
  rcases List.mem_cons.mp hr with rfl | hr
  · rcases List.mem_map.mp hcell with ⟨f, hf, rfl⟩
    intro c hc
    simp only [str_upper, sanitize_text, sanitizeChars, data_mk] at hc
    rcases List.mem_map.mp hc with ⟨d, hd, rfl⟩
    exact toUpper_toNat_le d (sanitizeAux_ascii false f.data d hd)
  · rcases List.mem_map.mp hr with ⟨row, hrow, rfl⟩
    rcases List.mem_map.mp hcell with ⟨f, hf, rfl⟩
    intro c hc
    simp only [sanitize_text, sanitizeChars, data_mk] at hc
    exact sanitizeAux_ascii false _ c hc

/-- Test for the table constructor. -/
def elementIsTable : Element → Bool
  | .table _ => true
  | _ => false

/-- C2 counterexample: the Value Formatter does not keep every scalar
below limit+3 characters.  The integer 10 to the power 103 is a scalar
input whose formatted output, its full decimal string, has 104
characters, exceeding 103. -/
theorem c2_counterexample :
    103 < (format_value (PyVal.int (Int.ofNat (10 ^ 103)))).length := by decide

/-- C2 (amended): for null, boolean and string inputs the Value
Formatter is total and returns at most limit+3 = 103 characters; for a
numeric input it returns the full decimal string of the number, whose
length is not bounded. -/
theorem c2_bounded :
    (format_value PyVal.null).length ≤ 103 ∧
    (∀ b, (format_value (PyVal.bool b)).length ≤ 103) ∧
    (∀ s : String, (format_value (PyVal.str s)).length ≤ 103) ∧
    (∀ n : Int, format_value (PyVal.int n) = toString n) := by
  refine ⟨by decide, fun b => by cases b <;> decide, ?_, fun n => rfl⟩
  intro s
  by_cases h : s.length > 100
  · simp only [format_value, if_pos h]
    rw [String.length_append]
    have h1 : (str_take s 97).length ≤ 97 := by
      simp [str_take, List.length_take]
    have h2 : ("..." : String).length = 3 := by decide
    omega
  · simp only [format_value, if_neg h]
    omega

/-- C3 counterexample: the Text Sanitizer does not restrict its output
to the printable 7-bit range.  The control character with code point 7
(below the printable range, which starts at 32) passes through
unchanged. -/
theorem c3_counterexample :
    sanitize_text (some "\u0007") = "\u0007" ∧
    (("\u0007" : String).data.all fun c => decide (c.toNat < 32)) = true :=
  ⟨by decide, by decide⟩

/-- C3 (amended): for every input the Text Sanitizer returns a string
containing only characters in the 7-bit range, code points 0 to 127,
control characters included; any maximal run of characters outside that
range collapses to a single space, a 7-bit character is kept unchanged,
and null input returns the empty string. -/
theorem c3_sanitize :
    sanitize_text none = "" ∧
    (∀ s : String, ∀ c ∈ (sanitize_text (some s)).data, c.toNat ≤ 127) ∧
    (∀ (c : Char) (l : List Char), c.toNat ≤ 127 →
      sanitizeChars (c :: l) = c :: sanitizeChars l) ∧
    (∀ (run l : List Char), run ≠ [] → (∀ c ∈ run, 127 < c.toNat) → headAscii l = true →
      sanitizeChars (run ++ l) = spaceChar :: sanitizeChars l) := by
  refine ⟨rfl, ?_, ?_, ?_⟩
  · intro s c hc
    simp only [sanitize_text, sanitizeChars, data_mk] at hc
    exact sanitizeAux_ascii false s.data c hc
  · intro c l hc
    simp only [sanitizeChars]
    rw [sanitizeAux, if_pos hc]
  · intro run l hne hrun hl
    exact sanitizeAux_run run l hne hrun hl

/-- C3 witness: instances of the amended contract at concrete input, a
kept 7-bit character and a collapsed two-character run. -/
theorem c3_sanitize_witness :
    sanitizeChars ('a' :: ['b']) = 'a' :: sanitizeChars ['b'] ∧
    sanitizeChars (['ã', 'é'] ++ ['b']) = spaceChar :: sanitizeChars ['b'] :=
  ⟨c3_sanitize.2.2.1 'a' ['b'] (by decide),
   c3_sanitize.2.2.2 ['ã', 'é'] ['b'] (by decide) (by decide) (by decide)⟩

/-- C6: the Value Formatter maps null to the placeholder dash, booleans
to the localized tokens, integers to their decimal string, strings of at
most 100 characters to themselves, longer strings to their first 97
characters followed by the ellipsis, and any other value to its string
conversion. -/
theorem c6_format_cases :
    format_value PyVal.null = "-" ∧
    (∀ b, format_value (PyVal.bool b) = if b then "Sim" else "Não") ∧
    (∀ n : Int, format_value (PyVal.int n) = toString n) ∧
    (∀ s : String, s.length ≤ 100 → format_value (PyVal.str s) = s) ∧
    (∀ s : String, 100 < s.length → format_value (PyVal.str s) = str_take s 97 ++ "...") ∧
    (∀ s : String, format_value (PyVal.other s) = s) := by
  refine ⟨rfl, fun b => rfl, fun n => rfl, ?_, ?_, fun s => rfl⟩
  · intro s h
    simp only [format_value]
    rw [if_neg (by omega)]
  · intro s h
    simp only [format_value]
    rw [if_pos h]

/-- C6 witness: the string cases evaluated at concrete input, one short
string kept and one 101-character string truncated. -/
theorem c6_format_cases_witness :
    format_value (PyVal.str "abc") = "abc" ∧
    format_value (PyVal.str (String.mk (List.replicate 101 'a'))) =
      str_take (String.mk (List.replicate 101 'a')) 97 ++ "..." :=
  ⟨c6_format_cases.2.2.2.1 "abc" (by decide),
   c6_format_cases.2.2.2.2.1 (String.mk (List.replicate 101 'a')) (by decide)⟩

/-- C7: the Text Sanitizer is idempotent, since its output contains
only 7-bit characters and on such strings it is the identity. -/
theorem c7_idempotent (s : String) :
    sanitize_text (some (sanitize_text (some s))) = sanitize_text (some s) := by
  simp only [sanitize_text, sanitizeChars, data_mk]
  exact congrArg String.mk
    (sanitizeAux_id (sanitizeAux false s.data) (sanitizeAux_ascii false s.data))

/-- C5: with zero rows the Report Renderer emits the no-data paragraph
and the produced document contains no table element. -/
theorem c5_empty_rows (table_name : String) (fields : List String) (now : String) :
    Element.paragraph "Nenhum dado encontrado." "Normal"
        ∈ (create_pdf [] table_name fields now).elements ∧
    ((create_pdf [] table_name fields now).elements.all
        fun e => !(elementIsTable e)) = true := by
  constructor
  · simp [create_pdf]
  · simp [create_pdf, elementIsTable]

/-- C9: the Report Renderer chooses landscape orientation exactly when
the field count exceeds 5, and portrait orientation otherwise. -/
theorem c9_orientation (data : List Row) (table_name : String) (fields : List String)
    (now : String) :
    ((create_pdf data table_name fields now).orientation = PageOrient.landscape ↔
      5 < fields.length) ∧
    ((create_pdf data table_name fields now).orientation = PageOrient.portrait ↔
      fields.length ≤ 5) := by
  by_cases h : 5 < fields.length
  · simp [create_pdf, h]
  · simp [create_pdf, h]
    omega

/-- Emptiness of a list as the Boolean the renderer branches on. -/
theorem isEmpty_false_of_ne_nil {α : Type} {l : List α} (h : l ≠ []) :
    l.isEmpty = false := by
  cases l with
  | nil => exact absurd rfl h
  | cons a as => rfl

/-- C1: for a non-empty row list the document contains the table whose
first row is the uppercased, sanitized field names, followed by one body
row per input row, the cell at row i and column j being the value of
fields j looked up in row i (dash placeholder when absent), run through
the Value Formatter and then the Text Sanitizer; the body has exactly as
many rows as the input. -/
theorem c1_table (data : List Row) (table_name : String) (fields : List String)
    (now : String) (h : data ≠ []) :
    Element.table
        ((fields.map fun field => str_upper (sanitize_text (some field))) ::
          data.map fun row => fields.map fun field =>
            sanitize_text (some (format_value ((row.lookup field).getD (PyVal.str "-")))))
      ∈ (create_pdf data table_name fields now).elements ∧
    (data.map fun row => fields.map fun field =>
        sanitize_text (some (format_value ((row.lookup field).getD (PyVal.str "-"))))).length
      = data.length := by
  have hd : data.isEmpty = false := isEmpty_false_of_ne_nil h
  refine ⟨?_, List.length_map _ _⟩
  simp [create_pdf, hd, table_data, headers, row_data]

/-- C1 witness: at one row with one field the table element is present
and evaluates to the header ID over the cell 1. -/
theorem c1_table_witness :
    Element.table
        ((["id"].map fun field => str_upper (sanitize_text (some field))) ::
          ([[("id", PyVal.int 1)]] : List Row).map fun row => ["id"].map fun field =>
            sanitize_text (some (format_value ((row.lookup field).getD (PyVal.str "-")))))
      ∈ (create_pdf [[("id", PyVal.int 1)]] "users" ["id"] "now").elements ∧
    ((["id"].map fun field => str_upper (sanitize_text (some field))) ::
        ([[("id", PyVal.int 1)]] : List Row).map fun row => ["id"].map fun field =>
          sanitize_text (some (format_value ((row.lookup field).getD (PyVal.str "-")))))
      = [["ID"], ["1"]] :=
  ⟨(c1_table [[("id", PyVal.int 1)]] "users" ["id"] "now" (by decide)).1, by decide⟩

/-- C4 counterexample: with the empty row list the assembled document is
title, timestamp subtitle, spacer and the no-data paragraph; in
particular it contains no record-count footer, although the claim
demands one for every row list including the empty one. -/
theorem c4_counterexample :
    (create_pdf [] "users" ["id"] "now").elements =
      [ Element.paragraph "Relatório: users" "CustomTitle",
        Element.paragraph "Gerado em: now" "CustomSubtitle",
        Element.spacer,
        Element.paragraph "Nenhum dado encontrado." "Normal" ] ∧
    Element.paragraph "Total de registros: 0" "CustomSubtitle"
        ∉ (create_pdf [] "users" ["id"] "now").elements :=
  ⟨by decide, by decide⟩

/-- C4 (amended): for every non-empty row list the document contains the
footer paragraph reporting the total record count; with the empty row
list the renderer takes the no-data branch and emits no footer. -/
theorem c4_footer (data : List Row) (table_name : String) (fields : List String)
    (now : String) (h : data ≠ []) :
    Element.paragraph ("Total de registros: " ++ toString data.length) "CustomSubtitle"
      ∈ (create_pdf data table_name fields now).elements := by
  have hd : data.isEmpty = false := isEmpty_false_of_ne_nil h
  simp [create_pdf, hd]

/-- C4 witness: the footer for a single row. -/
theorem c4_footer_witness :
    Element.paragraph ("Total de registros: " ++ toString ([[("id", PyVal.int 1)]] : List Row).length)
        "CustomSubtitle"
      ∈ (create_pdf [[("id", PyVal.int 1)]] "users" ["id"] "now").elements :=
  c4_footer [[("id", PyVal.int 1)]] "users" ["id"] "now" (by decide)

/-- Validation failure: a missing required key or an invalid fields
value makes the shared validation prologue return an error message. -/
theorem validate_fails (required : List String) (body : String → Option JVal)
    (h : (∃ k ∈ required, body k = none) ∨
      fields_invalid ((body "fields").getD JVal.null) = true) :
    ∃ msg, validate required body = some msg := by
  unfold validate
  cases hf : required.find? (fun f => (body f).isNone) with
  | some f => exact ⟨_, rfl⟩
  | none =>
    rcases h with ⟨k, hk, hnone⟩ | hinv
    · have hall := List.find?_eq_none.mp hf k hk
      rw [hnone] at hall
      simp at hall
    · rw [if_pos hinv]
      exact ⟨_, rfl⟩

/-- C8: a request body whose fields value is the empty list or not a
list, or which misses one of the required keys, makes each handler
answer with the 400 validation error, and the flag recording whether the
data-source collaborator was reached stays false, whatever the
collaborator outcomes would have been. -/
theorem c8_validation (body : String → Option JVal) (connect : Except String Unit)
    (fetch : Except String (List Row)) (upload : Pdf → String → Except String String)
    (now ts : String) :
    (((∃ k ∈ required_fields_api, body k = none) ∨
        fields_invalid ((body "fields").getD JVal.null) = true) →
      ∃ msg, generate_pdf body connect fetch now ts = (Response.clientError msg, false)) ∧
    (((∃ k ∈ required_fields_app, body k = none) ∨
        fields_invalid ((body "fields").getD JVal.null) = true) →
      ∃ msg, app_generate_pdf body connect fetch upload now ts
        = (Response.clientError msg, false)) := by
  constructor
  · intro h
    obtain ⟨msg, hv⟩ := validate_fails required_fields_api body h
    exact ⟨msg, by unfold generate_pdf; rw [hv]⟩
  · intro h
    obtain ⟨msg, hv⟩ := validate_fails required_fields_app body h
    exact ⟨msg, by unfold app_generate_pdf; rw [hv]⟩

/-- Request body used to witness C8: all required keys present but the
fields value is the empty list. -/
def sample_body : String → Option JVal :=
  fun k => if k == "fields" then some (JVal.arr []) else some (JVal.str "x")

/-- C8 witness: with the empty fields list both handlers answer 400
without reaching the collaborator, even though both collaborator calls
would have succeeded. -/
theorem c8_validation_witness :
    (∃ msg, generate_pdf sample_body (Except.ok ()) (Except.ok []) "now" "ts"
        = (Response.clientError msg, false)) ∧
    (∃ msg, app_generate_pdf sample_body (Except.ok ()) (Except.ok [])
        (fun _ _ => Except.ok "url") "now" "ts" = (Response.clientError msg, false)) :=
  ⟨(c8_validation sample_body (Except.ok ()) (Except.ok [])
      (fun _ _ => Except.ok "url") "now" "ts").1 (Or.inr (by decide)),
   (c8_validation sample_body (Except.ok ()) (Except.ok [])
      (fun _ _ => Except.ok "url") "now" "ts").2 (Or.inr (by decide))⟩

/-- C10: formatting the boolean false and sanitizing the result yields
the string N-space-o, because the localized token contains a non-7-bit
character that the sanitizer replaces with one space; consequently the
intact localized token never occurs contiguously in any cell of the
table of any rendered document, since every cell consists of 7-bit
characters only. -/
theorem c10_localized_no :
    sanitize_text (some (format_value (PyVal.bool false))) = "N o" ∧
    (∀ (data : List Row) (table_name : String) (fields : List String) (now : String)
        (tbl : List (List String)),
      Element.table tbl ∈ (create_pdf data table_name fields now).elements →
      ∀ r ∈ tbl, ∀ cell ∈ r, ¬ containsRun ("Não".data) cell.data) := by
  constructor
  · decide
  · intro data table_name fields now tbl htbl r hr cell hcell hrun
    by_cases hd : data.isEmpty
    · simp [create_pdf, hd] at htbl
    · simp only [Bool.not_eq_true] at hd
      simp [create_pdf, hd] at htbl
      subst htbl
      have hascii := mem_table_data_ascii data fields r hr cell hcell
      obtain ⟨pre, suf, he⟩ := hrun
      have h1 : ('ã' : Char) ∈ ("Não" : String).data := by decide
      have h2 : ('ã' : Char) ∈ cell.data := by
        rw [he]
        exact List.mem_append.mpr (Or.inl (List.mem_append.mpr (Or.inr h1)))
      have h3 := hascii 'ã' h2
      have h4 : ('ã' : Char).toNat = 227 := by decide
      omega

/-- C10 witness: the table rendered from one false cell contains the
cell N-space-o, and the intact localized token does not occur in it. -/
theorem c10_localized_no_witness :
    ¬ containsRun ("Não".data) (("N o" : String).data) :=
  c10_localized_no.2 [[("ok", PyVal.bool false)]] "t" ["ok"] "now"
    [["OK"], ["N o"]] (by decide) ["N o"] (by decide) "N o" (by decide)
